import Mathlib

/-! # ADC unpacking (`stm32_firmware/Core/Src/adc2&adc3.c`, `Core/Inc/adc.h`)

A shallow embedding of the two unpacking routines `UpdateADC2` and
`UpdateADC3`, of the global variables they read and write, and of the implicit
C conversion `uint16_t → float` performed by every assignment.

* A `uint16_t` is a `Nat` below `65536`.
* A `float` is the `Nat` holding its IEEE-754 binary32 bit pattern.
* An array read `a[i]` is `a[i]?`: reading outside the object is `none`, and a
  routine that performs such a read has no result (`none`).
-/

namespace ADC

/-! ## The implicit conversion `uint16_t → float` -/

/-- Position of the leading one bit of a non-zero `v < 2 ^ 24`: the greatest
`k ≤ 23` with `2 ^ k ≤ v`. -/
def leadingBit (v : Nat) : Nat := Nat.findGreatest (fun k => 2 ^ k ≤ v) 23

/-- Conversion of an unsigned integer below `2 ^ 24` to binary32 (what the C
assignment `float x = u;` does for such a `u`): zero is `+0.0`; a non-zero `v`
with leading bit `e` has biased exponent `127 + e` and the bits of `v` under
the leading one, left-aligned in the 23-bit fraction field. -/
def uint16ToFloat (v : Nat) : Nat :=
  if v = 0 then 0
  else (127 + leadingBit v) * 2 ^ 23 + (v - 2 ^ leadingBit v) * 2 ^ (23 - leadingBit v)

/-- The number a binary32 bit pattern denotes; `none` for infinities and NaN
(exponent field `255`). -/
def floatValue (b : Nat) : Option ℚ :=
  let sign : ℚ := if b / 2 ^ 31 % 2 = 1 then -1 else 1
  let ex : Nat := b / 2 ^ 23 % 256
  let frac : Nat := b % 2 ^ 23
  if ex = 255 then none
  else if ex = 0 then some (sign * (frac : ℚ) / 2 ^ 149)
  else some (sign * ((2 ^ 23 + frac : Nat) : ℚ) * 2 ^ ex / 2 ^ 150)

/-! ## Global state -/

/-- The globals of `adc2&adc3.c` and `adc.h`. The two raw buffers are defined
in another translation unit; a buffer is the list of the `uint16_t` slots of
that object. Channel variables (`float`) hold binary32 bit patterns. -/
structure State where
  /-- Peripheral-A raw buffer, `extern uint16_t ADC2_Values[11];`. -/
  ADC2_Values : List Nat
  /-- Peripheral-B raw buffer, `extern uint16_t ADC3_Values[7];`. -/
  ADC3_Values : List Nat
  /-- Completion flag, `extern volatile uint8_t isADC2Finished;`. -/
  isADC2Finished : Nat
  /-- Completion flag, `extern volatile uint8_t isADC3Finished;`. -/
  isADC3Finished : Nat
  adc203 : Nat
  adc209 : Nat
  adc213 : Nat
  adc204 : Nat
  adc207 : Nat
  adc206 : Nat
  adc205 : Nat
  adc200 : Nat
  adc215 : Nat
  adc208 : Nat
  adc214 : Nat
  adc212 : Nat
  adc210 : Nat
  adc309 : Nat
  adc315 : Nat
  adc308 : Nat
  adc306 : Nat
  adc305 : Nat
  adc307 : Nat
  adc314 : Nat
  deriving DecidableEq, Repr

/-- Length in `extern uint16_t ADC2_Values[11];` (`adc2&adc3.c` line 12,
`adc.h` line 34). -/
def ADC2_Values_declared_length : Nat := 11

/-- Length in `extern uint16_t ADC3_Values[7];` (`adc2&adc3.c` line 13). -/
def ADC3_Values_declared_length : Nat := 7

/-! ## The routines -/

/-- The routine `void UpdateADC2(void)`, `adc2&adc3.c` lines 22-36: twelve
assignments `channel = ADC2_Values[i];`, each converting the `uint16_t` read to
`float`. -/
def UpdateADC2 (s : State) : Option State := do
  let r ← s.ADC2_Values[0]?
  let s := { s with adc203 := uint16ToFloat r }
  let r ← s.ADC2_Values[1]?
  let s := { s with adc210 := uint16ToFloat r }
  let r ← s.ADC2_Values[2]?
  let s := { s with adc213 := uint16ToFloat r }
  let r ← s.ADC2_Values[3]?
  let s := { s with adc204 := uint16ToFloat r }
  let r ← s.ADC2_Values[4]?
  let s := { s with adc207 := uint16ToFloat r }
  let r ← s.ADC2_Values[5]?
  let s := { s with adc206 := uint16ToFloat r }
  let r ← s.ADC2_Values[6]?
  let s := { s with adc205 := uint16ToFloat r }
  let r ← s.ADC2_Values[7]?
  let s := { s with adc200 := uint16ToFloat r }
  let r ← s.ADC2_Values[8]?
  let s := { s with adc215 := uint16ToFloat r }
  let r ← s.ADC2_Values[9]?
  let s := { s with adc208 := uint16ToFloat r }
  let r ← s.ADC2_Values[10]?
  let s := { s with adc214 := uint16ToFloat r }
  let r ← s.ADC2_Values[11]?
  let s := { s with adc212 := uint16ToFloat r }
  pure s

/-- The routine `void UpdateADC3(void)`, `adc2&adc3.c` lines 38-47: seven
assignments `channel = ADC3_Values[i];`. -/
def UpdateADC3 (s : State) : Option State := do
  let r ← s.ADC3_Values[0]?
  let s := { s with adc309 := uint16ToFloat r }
  let r ← s.ADC3_Values[1]?
  let s := { s with adc315 := uint16ToFloat r }
  let r ← s.ADC3_Values[2]?
  let s := { s with adc308 := uint16ToFloat r }
  let r ← s.ADC3_Values[3]?
  let s := { s with adc306 := uint16ToFloat r }
  let r ← s.ADC3_Values[4]?
  let s := { s with adc305 := uint16ToFloat r }
  let r ← s.ADC3_Values[5]?
  let s := { s with adc307 := uint16ToFloat r }
  let r ← s.ADC3_Values[6]?
  let s := { s with adc314 := uint16ToFloat r }
  pure s

/-! ## The assignment table

The same two routines as lists of assignments `c = buf[i];`, one entry per
source line, so that "the indices read" and "the variables assigned" are
objects one can quantify over. `UpdateADC2_eq_table` and
`UpdateADC3_eq_table` below show that running the tables is running the
routines. -/

/-- The twenty channel variables declared in `adc2&adc3.c` lines 15-20. -/
inductive Channel where
  | adc203 | adc209 | adc213 | adc204 | adc207
  | adc206 | adc205 | adc200 | adc215 | adc208
  | adc214 | adc212 | adc210
  | adc309 | adc315 | adc308 | adc306
  | adc305 | adc307 | adc314
  deriving DecidableEq, Repr

/-- The thirteen peripheral-A channel variables, in declaration order
(lines 15-17). -/
def declaredADC2 : List Channel :=
  [.adc203, .adc209, .adc213, .adc204, .adc207,
   .adc206, .adc205, .adc200, .adc215, .adc208,
   .adc214, .adc212, .adc210]

/-- The seven peripheral-B channel variables, in declaration order
(lines 19-20). -/
def declaredADC3 : List Channel :=
  [.adc309, .adc315, .adc308, .adc306, .adc305, .adc307, .adc314]

/-- Read a channel variable. -/
def State.load (s : State) : Channel → Nat
  | .adc203 => s.adc203 | .adc209 => s.adc209 | .adc213 => s.adc213
  | .adc204 => s.adc204 | .adc207 => s.adc207 | .adc206 => s.adc206
  | .adc205 => s.adc205 | .adc200 => s.adc200 | .adc215 => s.adc215
  | .adc208 => s.adc208 | .adc214 => s.adc214 | .adc212 => s.adc212
  | .adc210 => s.adc210
  | .adc309 => s.adc309 | .adc315 => s.adc315 | .adc308 => s.adc308
  | .adc306 => s.adc306 | .adc305 => s.adc305 | .adc307 => s.adc307
  | .adc314 => s.adc314

/-- Write a channel variable. -/
def State.store (s : State) (c : Channel) (x : Nat) : State :=
  match c with
  | .adc203 => { s with adc203 := x } | .adc209 => { s with adc209 := x }
  | .adc213 => { s with adc213 := x } | .adc204 => { s with adc204 := x }
  | .adc207 => { s with adc207 := x } | .adc206 => { s with adc206 := x }
  | .adc205 => { s with adc205 := x } | .adc200 => { s with adc200 := x }
  | .adc215 => { s with adc215 := x } | .adc208 => { s with adc208 := x }
  | .adc214 => { s with adc214 := x } | .adc212 => { s with adc212 := x }
  | .adc210 => { s with adc210 := x }
  | .adc309 => { s with adc309 := x } | .adc315 => { s with adc315 := x }
  | .adc308 => { s with adc308 := x } | .adc306 => { s with adc306 := x }
  | .adc305 => { s with adc305 := x } | .adc307 => { s with adc307 := x }
  | .adc314 => { s with adc314 := x }

/-- The statement `c = ADC2_Values[i];`. -/
def assignADC2 (s : State) (p : Channel × Nat) : Option State :=
  (s.ADC2_Values[p.2]?).map fun r => s.store p.1 (uint16ToFloat r)

/-- The statement `c = ADC3_Values[i];`. -/
def assignADC3 (s : State) (p : Channel × Nat) : Option State :=
  (s.ADC3_Values[p.2]?).map fun r => s.store p.1 (uint16ToFloat r)

/-- The body of `UpdateADC2`, lines 24-35. -/
def UpdateADC2_assignments : List (Channel × Nat) :=
  [ (.adc203, 0),
    (.adc210, 1),
    (.adc213, 2),
    (.adc204, 3),
    (.adc207, 4),
    (.adc206, 5),
    (.adc205, 6),
    (.adc200, 7),
    (.adc215, 8),
    (.adc208, 9),
    (.adc214, 10),
    (.adc212, 11) ]

/-- The body of `UpdateADC3`, lines 40-46. -/
def UpdateADC3_assignments : List (Channel × Nat) :=
  [ (.adc309, 0),
    (.adc315, 1),
    (.adc308, 2),
    (.adc306, 3),
    (.adc305, 4),
    (.adc307, 5),
    (.adc314, 6) ]

/-! ## The voltage conversion helper -/

/-- Modelled from the spec: the body of `ReadingToADCVoltage`, of which only
the prototype `float ReadingToADCVoltage(uint32_t adc_raw);` (`adc.h` line 42)
is among the sources. Spec, section 4.4: "voltage = rawSample ×
(referenceVoltage / fullScaleValue)", a pure function of the raw sample. The
two fixed constants are parameters and the arithmetic is exact (rational);
rounding to `float` is not modelled. -/
def ReadingToADCVoltage (referenceVoltage fullScaleValue : ℚ) (adc_raw : Nat) : ℚ :=
  (adc_raw : ℚ) * (referenceVoltage / fullScaleValue)

/-! ## Concrete states -/

/-- A state with every channel variable `+0.0` and both flags cleared. -/
def stateOf (bufA bufB : List Nat) : State :=
  { ADC2_Values := bufA, ADC3_Values := bufB,
    isADC2Finished := 0, isADC3Finished := 0,
    adc203 := 0, adc209 := 0, adc213 := 0, adc204 := 0, adc207 := 0,
    adc206 := 0, adc205 := 0, adc200 := 0, adc215 := 0, adc208 := 0,
    adc214 := 0, adc212 := 0, adc210 := 0,
    adc309 := 0, adc315 := 0, adc308 := 0, adc306 := 0,
    adc305 := 0, adc307 := 0, adc314 := 0 }

/-- Buffer A of the spec's scenario (twelve slots). -/
def scenarioA : List Nat :=
  [100, 200, 300, 400, 500, 600, 700, 800, 900, 1000, 1100, 1200]

/-- A peripheral-A buffer with the eleven slots of the declaration. -/
def declaredA : List Nat :=
  [100, 200, 300, 400, 500, 600, 700, 800, 900, 1000, 1100]

/-- A peripheral-B buffer with the seven slots of the declaration. -/
def sampleB : List Nat := [10, 20, 30, 40, 50, 60, 4095]

/-- The scenario state with `adc209` holding `1.0f` (`0x3f800000`) before the
call. -/
def stateStale : State :=
  { stateOf scenarioA sampleB with adc209 := 0x3f800000 }


/-! ## The conversion is exact -/

theorem leadingBit_le (v : Nat) : leadingBit v ≤ 23 := Nat.findGreatest_le 23

theorem leadingBit_pow_le (v : Nat) (h0 : v ≠ 0) : 2 ^ leadingBit v ≤ v := by
  have h : (fun k => 2 ^ k ≤ v) 0 := by
    show 2 ^ 0 ≤ v
    simp; omega
  exact Nat.findGreatest_spec (P := fun k => 2 ^ k ≤ v) (Nat.zero_le 23) h

theorem lt_pow_leadingBit (v : Nat) (h : v < 2 ^ 24) : v < 2 ^ (leadingBit v + 1) := by
  by_cases hk : leadingBit v + 1 ≤ 23
  · have := Nat.findGreatest_is_greatest (P := fun k => 2 ^ k ≤ v) (n := 23)
      (k := leadingBit v + 1) (Nat.lt_succ_self _) hk
    simpa using this
  · have h23 : leadingBit v = 23 := by
      have := leadingBit_le v
      omega
    rw [h23]; exact h

/-- Decoding a normal binary32 pattern given by its exponent and fraction
fields. -/
theorem floatValue_normal (e f : Nat) (he : e ≤ 23) (hf : f < 2 ^ 23) :
    floatValue ((127 + e) * 2 ^ 23 + f)
      = some (((2 ^ 23 + f : Nat) : ℚ) * 2 ^ (127 + e) / 2 ^ 150) := by
  have hfrac : ((127 + e) * 2 ^ 23 + f) % 2 ^ 23 = f := by
    norm_num at hf ⊢; omega
  have hex : ((127 + e) * 2 ^ 23 + f) / 2 ^ 23 % 256 = 127 + e := by
    norm_num at hf ⊢; omega
  have hsign : ((127 + e) * 2 ^ 23 + f) / 2 ^ 31 % 2 = 0 := by
    norm_num at hf ⊢; omega
  have h255 : 127 + e ≠ 255 := by omega
  have h0 : 127 + e ≠ 0 := by omega
  simp only [floatValue, hfrac, hex, hsign, if_neg h255, if_neg h0]
  simp

/-- Every integer below `2 ^ 24` survives the conversion to `float`
unchanged. -/
theorem floatValue_uint16ToFloat (v : Nat) (h : v < 2 ^ 24) :
    floatValue (uint16ToFloat v) = some (v : ℚ) := by
  by_cases h0 : v = 0
  · subst h0
    simp [uint16ToFloat, floatValue]
  · have hle := leadingBit_le v
    have hlo := leadingBit_pow_le v h0
    have hhi := lt_pow_leadingBit v h
    simp only [uint16ToFloat, if_neg h0]
    generalize leadingBit v = e at hle hlo hhi
    have hsplit : 2 ^ e * 2 ^ (23 - e) = 2 ^ 23 := by
      rw [← pow_add]; congr 1; omega
    have hsum : 2 ^ 23 + (v - 2 ^ e) * 2 ^ (23 - e) = v * 2 ^ (23 - e) := by
      rw [← hsplit, ← Nat.add_mul]; congr 1; omega
    have hf : (v - 2 ^ e) * 2 ^ (23 - e) < 2 ^ 23 := by
      rw [← hsplit]
      apply Nat.mul_lt_mul_of_pos_right _ (by positivity)
      rw [pow_succ] at hhi; omega
    rw [floatValue_normal e _ hle hf, hsum]
    congr 1
    have h150 : (2 : ℚ) ^ (23 - e) * 2 ^ (127 + e) = 2 ^ 150 := by
      rw [← pow_add]; congr 1; omega
    push_cast
    rw [mul_assoc, h150]
    field_simp

/-- A `uint16_t` survives the conversion to `float` unchanged. -/
theorem floatValue_of_uint16 (v : Nat) (h : v < 65536) :
    floatValue (uint16ToFloat v) = some (v : ℚ) :=
  floatValue_uint16ToFloat v (by omega)

/-! ## What the routines compute -/

theorem UpdateADC2_of_cons (s : State) (v0 v1 v2 v3 v4 v5 v6 v7 v8 v9 v10 v11 : Nat)
    (rest : List Nat)
    (h : s.ADC2_Values = v0 :: v1 :: v2 :: v3 :: v4 :: v5 :: v6 :: v7 :: v8 :: v9 :: v10 :: v11 :: rest) :
    UpdateADC2 s = some { s with
      adc203 := uint16ToFloat v0, adc210 := uint16ToFloat v1, adc213 := uint16ToFloat v2,
      adc204 := uint16ToFloat v3, adc207 := uint16ToFloat v4, adc206 := uint16ToFloat v5,
      adc205 := uint16ToFloat v6, adc200 := uint16ToFloat v7, adc215 := uint16ToFloat v8,
      adc208 := uint16ToFloat v9, adc214 := uint16ToFloat v10, adc212 := uint16ToFloat v11 } := by
  simp [UpdateADC2, h]

theorem UpdateADC3_of_cons (s : State) (v0 v1 v2 v3 v4 v5 v6 : Nat) (rest : List Nat)
    (h : s.ADC3_Values = v0 :: v1 :: v2 :: v3 :: v4 :: v5 :: v6 :: rest) :
    UpdateADC3 s = some { s with
      adc309 := uint16ToFloat v0, adc315 := uint16ToFloat v1, adc308 := uint16ToFloat v2,
      adc306 := uint16ToFloat v3, adc305 := uint16ToFloat v4, adc307 := uint16ToFloat v5,
      adc314 := uint16ToFloat v6 } := by
  simp [UpdateADC3, h]

theorem exists_cons_of_twelve_le (l : List Nat) (h : 12 ≤ l.length) :
    ∃ v0 v1 v2 v3 v4 v5 v6 v7 v8 v9 v10 v11 rest,
      l = v0 :: v1 :: v2 :: v3 :: v4 :: v5 :: v6 :: v7 :: v8 :: v9 :: v10 :: v11 :: rest := by
  rcases l with _ | ⟨v0, _ | ⟨v1, _ | ⟨v2, _ | ⟨v3, _ | ⟨v4, _ | ⟨v5, _ | ⟨v6, _ | ⟨v7, _ | ⟨v8,
    _ | ⟨v9, _ | ⟨v10, _ | ⟨v11, rest⟩⟩⟩⟩⟩⟩⟩⟩⟩⟩⟩⟩
  all_goals first
    | (simp at h; done)
    | exact ⟨_, _, _, _, _, _, _, _, _, _, _, _, _, rfl⟩

theorem exists_cons_of_seven_le (l : List Nat) (h : 7 ≤ l.length) :
    ∃ v0 v1 v2 v3 v4 v5 v6 rest, l = v0 :: v1 :: v2 :: v3 :: v4 :: v5 :: v6 :: rest := by
  rcases l with _ | ⟨v0, _ | ⟨v1, _ | ⟨v2, _ | ⟨v3, _ | ⟨v4, _ | ⟨v5, _ | ⟨v6, rest⟩⟩⟩⟩⟩⟩⟩
  all_goals first
    | (simp at h; done)
    | exact ⟨_, _, _, _, _, _, _, _, rfl⟩

/-- A read of slot 11 outside the buffer leaves `UpdateADC2` without a
result. -/
theorem UpdateADC2_of_short (s : State) (h : s.ADC2_Values.length < 12) :
    UpdateADC2 s = none := by
  have h11 : s.ADC2_Values[11]? = none := by
    simp; omega
  simp only [UpdateADC2, h11]
  cases s.ADC2_Values[0]? <;> cases s.ADC2_Values[1]? <;> cases s.ADC2_Values[2]? <;>
  cases s.ADC2_Values[3]? <;> cases s.ADC2_Values[4]? <;> cases s.ADC2_Values[5]? <;>
  cases s.ADC2_Values[6]? <;> cases s.ADC2_Values[7]? <;> cases s.ADC2_Values[8]? <;>
  cases s.ADC2_Values[9]? <;> cases s.ADC2_Values[10]? <;> rfl

theorem UpdateADC3_of_short (s : State) (h : s.ADC3_Values.length < 7) :
    UpdateADC3 s = none := by
  have h6 : s.ADC3_Values[6]? = none := by
    simp; omega
  simp only [UpdateADC3, h6]
  cases s.ADC3_Values[0]? <;> cases s.ADC3_Values[1]? <;> cases s.ADC3_Values[2]? <;>
  cases s.ADC3_Values[3]? <;> cases s.ADC3_Values[4]? <;> cases s.ADC3_Values[5]? <;> rfl


/-! ## The tables are the routines -/

theorem UpdateADC2_eq_table (s : State) :
    UpdateADC2 s = UpdateADC2_assignments.foldlM assignADC2 s := by
  rcases s with ⟨bufA, bufB, f2, f3, a203, a209, a213, a204, a207, a206, a205, a200, a215, a208,
    a214, a212, a210, a309, a315, a308, a306, a305, a307, a314⟩
  rcases bufA with _ | ⟨v0, _ | ⟨v1, _ | ⟨v2, _ | ⟨v3, _ | ⟨v4, _ | ⟨v5, _ | ⟨v6, _ | ⟨v7, _ | ⟨v8,
    _ | ⟨v9, _ | ⟨v10, _ | ⟨v11, rest⟩⟩⟩⟩⟩⟩⟩⟩⟩⟩⟩⟩
  all_goals first
    | rfl
    | simp [UpdateADC2, UpdateADC2_assignments, assignADC2, State.store, List.foldlM]

theorem UpdateADC3_eq_table (s : State) :
    UpdateADC3 s = UpdateADC3_assignments.foldlM assignADC3 s := by
  rcases s with ⟨bufA, bufB, f2, f3, a203, a209, a213, a204, a207, a206, a205, a200, a215, a208,
    a214, a212, a210, a309, a315, a308, a306, a305, a307, a314⟩
  rcases bufB with _ | ⟨v0, _ | ⟨v1, _ | ⟨v2, _ | ⟨v3, _ | ⟨v4, _ | ⟨v5, _ | ⟨v6, rest⟩⟩⟩⟩⟩⟩⟩
  all_goals first
    | rfl
    | simp [UpdateADC3, UpdateADC3_assignments, assignADC3, State.store, List.foldlM]

/-! ## C1: peripheral A is unpacked exactly -/

/-- C1: with the peripheral-A buffer holding `v0, ..., v11` (each a `uint16_t`)
in its slots 0 to 11, `UpdateADC2` returns, and afterwards each of the twelve
assigned channel variables denotes exactly the raw value at its fixed index:
adc203 = buf[0], adc210 = buf[1], adc213 = buf[2], adc204 = buf[3],
adc207 = buf[4], adc206 = buf[5], adc205 = buf[6], adc200 = buf[7],
adc215 = buf[8], adc208 = buf[9], adc214 = buf[10], adc212 = buf[11], with no
scaling and no rounding. -/
theorem UpdateADC2_channels_exact (s : State)
    (v0 v1 v2 v3 v4 v5 v6 v7 v8 v9 v10 v11 : Nat) (rest : List Nat)
    (hbuf : s.ADC2_Values
      = v0 :: v1 :: v2 :: v3 :: v4 :: v5 :: v6 :: v7 :: v8 :: v9 :: v10 :: v11 :: rest)
    (hu16 : ∀ v ∈ [v0, v1, v2, v3, v4, v5, v6, v7, v8, v9, v10, v11], v < 65536) :
    ∃ s', UpdateADC2 s = some s' ∧
      floatValue s'.adc203 = some (v0 : ℚ) ∧
      floatValue s'.adc210 = some (v1 : ℚ) ∧
      floatValue s'.adc213 = some (v2 : ℚ) ∧
      floatValue s'.adc204 = some (v3 : ℚ) ∧
      floatValue s'.adc207 = some (v4 : ℚ) ∧
      floatValue s'.adc206 = some (v5 : ℚ) ∧
      floatValue s'.adc205 = some (v6 : ℚ) ∧
      floatValue s'.adc200 = some (v7 : ℚ) ∧
      floatValue s'.adc215 = some (v8 : ℚ) ∧
      floatValue s'.adc208 = some (v9 : ℚ) ∧
      floatValue s'.adc214 = some (v10 : ℚ) ∧
      floatValue s'.adc212 = some (v11 : ℚ) := by
  refine ⟨_, UpdateADC2_of_cons s _ _ _ _ _ _ _ _ _ _ _ _ rest hbuf, ?_⟩
  refine ⟨?_, ?_, ?_, ?_, ?_, ?_, ?_, ?_, ?_, ?_, ?_, ?_⟩ <;>
    exact floatValue_of_uint16 _ (hu16 _ (by simp))

/-- C1 at the spec's scenario: buffer A `[100, 200, ..., 1200]`. -/
theorem UpdateADC2_channels_exact_scenario :
    (stateOf scenarioA sampleB).ADC2_Values
        = [100, 200, 300, 400, 500, 600, 700, 800, 900, 1000, 1100, 1200] ∧
    (∀ v ∈ [100, 200, 300, 400, 500, 600, 700, 800, 900, 1000, 1100, 1200], v < 65536) ∧
    ∃ s', UpdateADC2 (stateOf scenarioA sampleB) = some s' ∧
      floatValue s'.adc203 = some ((100 : Nat) : ℚ) ∧
      floatValue s'.adc210 = some ((200 : Nat) : ℚ) ∧
      floatValue s'.adc213 = some ((300 : Nat) : ℚ) ∧
      floatValue s'.adc204 = some ((400 : Nat) : ℚ) ∧
      floatValue s'.adc207 = some ((500 : Nat) : ℚ) ∧
      floatValue s'.adc206 = some ((600 : Nat) : ℚ) ∧
      floatValue s'.adc205 = some ((700 : Nat) : ℚ) ∧
      floatValue s'.adc200 = some ((800 : Nat) : ℚ) ∧
      floatValue s'.adc215 = some ((900 : Nat) : ℚ) ∧
      floatValue s'.adc208 = some ((1000 : Nat) : ℚ) ∧
      floatValue s'.adc214 = some ((1100 : Nat) : ℚ) ∧
      floatValue s'.adc212 = some ((1200 : Nat) : ℚ) :=
  ⟨rfl, by decide,
    UpdateADC2_channels_exact (stateOf scenarioA sampleB)
      100 200 300 400 500 600 700 800 900 1000 1100 1200 [] rfl (by decide)⟩

/-! ## C2: the indices read and the declared length of `ADC2_Values` -/

/-- On every buffer of the declared length 11 the read of slot 11 is out of
bounds and `UpdateADC2` has no result. -/
theorem UpdateADC2_of_declared_length (s : State)
    (h : s.ADC2_Values.length = ADC2_Values_declared_length) :
    s.ADC2_Values[11]? = none ∧ UpdateADC2 s = none := by
  have h11 : s.ADC2_Values.length = 11 := h
  refine ⟨?_, UpdateADC2_of_short s (by omega)⟩
  simp; omega

/-- C2 (violated by the code): the last assignment of `UpdateADC2`,
`adc212 = ADC2_Values[11];`, reads index 11, which is not below the declared
length 11; on a buffer of the declared length that read is out of bounds and
`UpdateADC2` has no result. -/
theorem UpdateADC2_reads_past_declared_length :
    (Channel.adc212, 11) ∈ UpdateADC2_assignments ∧
    ¬ 11 < ADC2_Values_declared_length ∧
    (stateOf declaredA sampleB).ADC2_Values.length = ADC2_Values_declared_length ∧
    (stateOf declaredA sampleB).ADC2_Values[11]? = none ∧
    assignADC2 (stateOf declaredA sampleB) (Channel.adc212, 11) = none ∧
    UpdateADC2 (stateOf declaredA sampleB) = none := by
  decide


/-! ## C3: which peripheral-A variables a call overwrites -/

/-- C3 as stated fails for `adc209`: it is one of the thirteen declared
peripheral-A variables, no assignment of `UpdateADC2` writes it, and a call
leaves it at its prior value `1.0f`, which is the raw value of no buffer slot;
started from the same buffer with `adc209 = +0.0` the call ends with
`adc209 = +0.0`, so its value after the call depends on its prior value. -/
theorem adc209_not_overwritten :
    Channel.adc209 ∈ declaredADC2 ∧
    Channel.adc209 ∉ UpdateADC2_assignments.map Prod.fst ∧
    stateStale.ADC2_Values = (stateOf scenarioA sampleB).ADC2_Values ∧
    (UpdateADC2 stateStale).map State.adc209 = some 0x3f800000 ∧
    0x3f800000 ∉ stateStale.ADC2_Values.map uint16ToFloat ∧
    (UpdateADC2 (stateOf scenarioA sampleB)).map State.adc209 = some 0 := by
  decide

/-- C3, amended: the twelve peripheral-A channel variables assigned in
`UpdateADC2` are the declared ones except `adc209`, each is assigned once, and
whenever the buffer holds the twelve slots read, the call returns and leaves
each of the twelve holding the converted raw value at its index, whatever the
prior state; `adc209` keeps its prior value. -/
theorem UpdateADC2_overwrites_assigned (s : State)
    (v0 v1 v2 v3 v4 v5 v6 v7 v8 v9 v10 v11 : Nat) (rest : List Nat)
    (hbuf : s.ADC2_Values
      = v0 :: v1 :: v2 :: v3 :: v4 :: v5 :: v6 :: v7 :: v8 :: v9 :: v10 :: v11 :: rest) :
    UpdateADC2 s = UpdateADC2_assignments.foldlM assignADC2 s ∧
    (UpdateADC2_assignments.map Prod.fst).Nodup ∧
    (∀ c, c ∈ UpdateADC2_assignments.map Prod.fst ↔ c ∈ declaredADC2 ∧ c ≠ Channel.adc209) ∧
    ∃ s', UpdateADC2 s = some s' ∧
      s'.adc203 = uint16ToFloat v0 ∧
      s'.adc210 = uint16ToFloat v1 ∧
      s'.adc213 = uint16ToFloat v2 ∧
      s'.adc204 = uint16ToFloat v3 ∧
      s'.adc207 = uint16ToFloat v4 ∧
      s'.adc206 = uint16ToFloat v5 ∧
      s'.adc205 = uint16ToFloat v6 ∧
      s'.adc200 = uint16ToFloat v7 ∧
      s'.adc215 = uint16ToFloat v8 ∧
      s'.adc208 = uint16ToFloat v9 ∧
      s'.adc214 = uint16ToFloat v10 ∧
      s'.adc212 = uint16ToFloat v11 ∧
      s'.adc209 = s.adc209 := by
  refine ⟨UpdateADC2_eq_table s, by decide, ?_, _,
    UpdateADC2_of_cons s _ _ _ _ _ _ _ _ _ _ _ _ rest hbuf, ?_⟩
  · intro c
    cases c <;> decide
  · simp

/-- The amended C3 at the state whose `adc209` holds `1.0f`. -/
theorem UpdateADC2_overwrites_assigned_stale :
    stateStale.ADC2_Values
        = [100, 200, 300, 400, 500, 600, 700, 800, 900, 1000, 1100, 1200] ∧
    UpdateADC2 stateStale = UpdateADC2_assignments.foldlM assignADC2 stateStale ∧
    (UpdateADC2_assignments.map Prod.fst).Nodup ∧
    (∀ c, c ∈ UpdateADC2_assignments.map Prod.fst ↔ c ∈ declaredADC2 ∧ c ≠ Channel.adc209) ∧
    ∃ s', UpdateADC2 stateStale = some s' ∧
      s'.adc203 = uint16ToFloat 100 ∧
      s'.adc210 = uint16ToFloat 200 ∧
      s'.adc213 = uint16ToFloat 300 ∧
      s'.adc204 = uint16ToFloat 400 ∧
      s'.adc207 = uint16ToFloat 500 ∧
      s'.adc206 = uint16ToFloat 600 ∧
      s'.adc205 = uint16ToFloat 700 ∧
      s'.adc200 = uint16ToFloat 800 ∧
      s'.adc215 = uint16ToFloat 900 ∧
      s'.adc208 = uint16ToFloat 1000 ∧
      s'.adc214 = uint16ToFloat 1100 ∧
      s'.adc212 = uint16ToFloat 1200 ∧
      s'.adc209 = stateStale.adc209 :=
  ⟨rfl, UpdateADC2_overwrites_assigned stateStale
      100 200 300 400 500 600 700 800 900 1000 1100 1200 [] rfl⟩

/-! ## C4: peripheral B is unpacked exactly -/

/-- C4: with the peripheral-B buffer holding `v0, ..., v6` (each a `uint16_t`)
in its slots 0 to 6, `UpdateADC3` returns, and afterwards each of the seven
declared peripheral-B channel variables denotes exactly the raw value at its
fixed index: adc309 = buf[0], adc315 = buf[1], adc308 = buf[2],
adc306 = buf[3], adc305 = buf[4], adc307 = buf[5], adc314 = buf[6]; the
variables assigned are all seven declared ones. -/
theorem UpdateADC3_channels_exact (s : State)
    (v0 v1 v2 v3 v4 v5 v6 : Nat) (rest : List Nat)
    (hbuf : s.ADC3_Values = v0 :: v1 :: v2 :: v3 :: v4 :: v5 :: v6 :: rest)
    (hu16 : ∀ v ∈ [v0, v1, v2, v3, v4, v5, v6], v < 65536) :
    UpdateADC3 s = UpdateADC3_assignments.foldlM assignADC3 s ∧
    UpdateADC3_assignments.map Prod.fst = declaredADC3 ∧
    ∃ s', UpdateADC3 s = some s' ∧
      floatValue s'.adc309 = some (v0 : ℚ) ∧
      floatValue s'.adc315 = some (v1 : ℚ) ∧
      floatValue s'.adc308 = some (v2 : ℚ) ∧
      floatValue s'.adc306 = some (v3 : ℚ) ∧
      floatValue s'.adc305 = some (v4 : ℚ) ∧
      floatValue s'.adc307 = some (v5 : ℚ) ∧
      floatValue s'.adc314 = some (v6 : ℚ) := by
  refine ⟨UpdateADC3_eq_table s, rfl, _, UpdateADC3_of_cons s _ _ _ _ _ _ _ rest hbuf, ?_⟩
  refine ⟨?_, ?_, ?_, ?_, ?_, ?_, ?_⟩ <;>
    exact floatValue_of_uint16 _ (hu16 _ (by simp))

/-- C4 at the buffer `[10, 20, 30, 40, 50, 60, 4095]`. -/
theorem UpdateADC3_channels_exact_sample :
    (stateOf scenarioA sampleB).ADC3_Values = [10, 20, 30, 40, 50, 60, 4095] ∧
    (∀ v ∈ [10, 20, 30, 40, 50, 60, 4095], v < 65536) ∧
    UpdateADC3 (stateOf scenarioA sampleB)
      = UpdateADC3_assignments.foldlM assignADC3 (stateOf scenarioA sampleB) ∧
    UpdateADC3_assignments.map Prod.fst = declaredADC3 ∧
    ∃ s', UpdateADC3 (stateOf scenarioA sampleB) = some s' ∧
      floatValue s'.adc309 = some ((10 : Nat) : ℚ) ∧
      floatValue s'.adc315 = some ((20 : Nat) : ℚ) ∧
      floatValue s'.adc308 = some ((30 : Nat) : ℚ) ∧
      floatValue s'.adc306 = some ((40 : Nat) : ℚ) ∧
      floatValue s'.adc305 = some ((50 : Nat) : ℚ) ∧
      floatValue s'.adc307 = some ((60 : Nat) : ℚ) ∧
      floatValue s'.adc314 = some ((4095 : Nat) : ℚ) :=
  ⟨rfl, by decide,
    UpdateADC3_channels_exact (stateOf scenarioA sampleB) 10 20 30 40 50 60 4095 [] rfl
      (by decide)⟩

/-! ## C5: the peripheral-A mapping is injective -/

/-- C5: the channel-to-index mapping of `UpdateADC2` is injective. The routine
is its table of twelve assignments; the indices read are `0, 1, ..., 11`, each
once, and no channel variable is assigned twice, so the table is a bijection
between the assigned variables and the indices read. -/
theorem UpdateADC2_mapping_injective :
    (∀ s, UpdateADC2 s = UpdateADC2_assignments.foldlM assignADC2 s) ∧
    UpdateADC2_assignments.map Prod.snd = List.range 12 ∧
    (UpdateADC2_assignments.map Prod.snd).Nodup ∧
    (UpdateADC2_assignments.map Prod.fst).Nodup ∧
    (∀ p ∈ UpdateADC2_assignments, ∀ q ∈ UpdateADC2_assignments, p.2 = q.2 → p = q) ∧
    (∀ p ∈ UpdateADC2_assignments, ∀ q ∈ UpdateADC2_assignments, p.1 = q.1 → p = q) :=
  ⟨UpdateADC2_eq_table, by decide, by decide, by decide, by decide, by decide⟩

/-! ## C6: the indices read and the declared length of `ADC3_Values` -/

/-- C6: every index `UpdateADC3` reads is below the declared length 7 of
`ADC3_Values`; on a buffer of that length every read finds its slot and the
routine returns. -/
theorem UpdateADC3_reads_in_bounds (s : State)
    (hlen : s.ADC3_Values.length = ADC3_Values_declared_length) :
    UpdateADC3 s = UpdateADC3_assignments.foldlM assignADC3 s ∧
    (∀ p ∈ UpdateADC3_assignments,
      p.2 < ADC3_Values_declared_length ∧ (s.ADC3_Values[p.2]?).isSome = true) ∧
    (UpdateADC3 s).isSome = true := by
  have h7 : 7 ≤ s.ADC3_Values.length := by
    rw [hlen]; decide
  obtain ⟨v0, v1, v2, v3, v4, v5, v6, rest, hb⟩ := exists_cons_of_seven_le _ h7
  refine ⟨UpdateADC3_eq_table s, ?_, ?_⟩
  · intro p hp
    have hp7 : p.2 < 7 := by
      revert p; decide
    refine ⟨hp7, ?_⟩
    have : p.2 < s.ADC3_Values.length := by omega
    simp [this]
  · rw [UpdateADC3_of_cons s _ _ _ _ _ _ _ rest hb]; rfl

/-- C6 at a seven-slot buffer. -/
theorem UpdateADC3_reads_in_bounds_sample :
    (stateOf declaredA sampleB).ADC3_Values.length = ADC3_Values_declared_length ∧
    UpdateADC3 (stateOf declaredA sampleB)
      = UpdateADC3_assignments.foldlM assignADC3 (stateOf declaredA sampleB) ∧
    (∀ p ∈ UpdateADC3_assignments,
      p.2 < ADC3_Values_declared_length ∧
      ((stateOf declaredA sampleB).ADC3_Values[p.2]?).isSome = true) ∧
    (UpdateADC3 (stateOf declaredA sampleB)).isSome = true :=
  ⟨rfl, UpdateADC3_reads_in_bounds (stateOf declaredA sampleB) rfl⟩


/-! ## C7: idempotence -/

/-- C7: unpacking is idempotent. For every state, `UpdateADC2` run twice gives
what `UpdateADC2` run once gives, and likewise `UpdateADC3`; and on a buffer
holding the slots read the routine does return, to a state it maps to
itself. -/
theorem Update_idempotent (s : State) :
    (UpdateADC2 s).bind UpdateADC2 = UpdateADC2 s ∧
    (UpdateADC3 s).bind UpdateADC3 = UpdateADC3 s ∧
    (12 ≤ s.ADC2_Values.length → ∃ s', UpdateADC2 s = some s' ∧ UpdateADC2 s' = some s') ∧
    (7 ≤ s.ADC3_Values.length → ∃ s', UpdateADC3 s = some s' ∧ UpdateADC3 s' = some s') := by
  have hA : 12 ≤ s.ADC2_Values.length →
      ∃ s', UpdateADC2 s = some s' ∧ UpdateADC2 s' = some s' := by
    intro h
    obtain ⟨v0, v1, v2, v3, v4, v5, v6, v7, v8, v9, v10, v11, rest, hb⟩ :=
      exists_cons_of_twelve_le _ h
    refine ⟨_, UpdateADC2_of_cons s _ _ _ _ _ _ _ _ _ _ _ _ rest hb, ?_⟩
    simp [UpdateADC2, hb]
  have hB : 7 ≤ s.ADC3_Values.length →
      ∃ s', UpdateADC3 s = some s' ∧ UpdateADC3 s' = some s' := by
    intro h
    obtain ⟨v0, v1, v2, v3, v4, v5, v6, rest, hb⟩ := exists_cons_of_seven_le _ h
    refine ⟨_, UpdateADC3_of_cons s _ _ _ _ _ _ _ rest hb, ?_⟩
    simp [UpdateADC3, hb]
  refine ⟨?_, ?_, hA, hB⟩
  · by_cases h : 12 ≤ s.ADC2_Values.length
    · obtain ⟨s', h1, h2⟩ := hA h
      rw [h1, Option.some_bind, h2]
    · rw [UpdateADC2_of_short s (by omega)]; rfl
  · by_cases h : 7 ≤ s.ADC3_Values.length
    · obtain ⟨s', h1, h2⟩ := hB h
      rw [h1, Option.some_bind, h2]
    · rw [UpdateADC3_of_short s (by omega)]; rfl

/-- C7 at the spec's scenario, where both routines return. -/
theorem Update_idempotent_scenario :
    (UpdateADC2 (stateOf scenarioA sampleB)).isSome = true ∧
    (UpdateADC3 (stateOf scenarioA sampleB)).isSome = true ∧
    (UpdateADC2 (stateOf scenarioA sampleB)).bind UpdateADC2
      = UpdateADC2 (stateOf scenarioA sampleB) ∧
    (UpdateADC3 (stateOf scenarioA sampleB)).bind UpdateADC3
      = UpdateADC3 (stateOf scenarioA sampleB) :=
  ⟨by decide, by decide, (Update_idempotent (stateOf scenarioA sampleB)).1,
    (Update_idempotent (stateOf scenarioA sampleB)).2.1⟩

/-! ## C8: frame -/

/-- C8: unpacking writes nothing but its own channel variables. Whatever state
`UpdateADC2` returns has both raw buffers, both completion flags and the seven
peripheral-B channel variables as before; whatever state `UpdateADC3` returns
has both raw buffers, both flags and the thirteen peripheral-A channel
variables as before; and each routine does return on a buffer holding the
slots it reads. -/
theorem Update_frame (s : State) :
    (∀ s', UpdateADC2 s = some s' →
      s'.ADC2_Values = s.ADC2_Values ∧ s'.ADC3_Values = s.ADC3_Values ∧
      s'.isADC2Finished = s.isADC2Finished ∧ s'.isADC3Finished = s.isADC3Finished ∧
      s'.adc309 = s.adc309 ∧ s'.adc315 = s.adc315 ∧ s'.adc308 = s.adc308 ∧
      s'.adc306 = s.adc306 ∧ s'.adc305 = s.adc305 ∧ s'.adc307 = s.adc307 ∧
      s'.adc314 = s.adc314) ∧
    (∀ s', UpdateADC3 s = some s' →
      s'.ADC2_Values = s.ADC2_Values ∧ s'.ADC3_Values = s.ADC3_Values ∧
      s'.isADC2Finished = s.isADC2Finished ∧ s'.isADC3Finished = s.isADC3Finished ∧
      s'.adc203 = s.adc203 ∧ s'.adc209 = s.adc209 ∧ s'.adc213 = s.adc213 ∧
      s'.adc204 = s.adc204 ∧ s'.adc207 = s.adc207 ∧ s'.adc206 = s.adc206 ∧
      s'.adc205 = s.adc205 ∧ s'.adc200 = s.adc200 ∧ s'.adc215 = s.adc215 ∧
      s'.adc208 = s.adc208 ∧ s'.adc214 = s.adc214 ∧ s'.adc212 = s.adc212 ∧
      s'.adc210 = s.adc210) ∧
    (12 ≤ s.ADC2_Values.length → (UpdateADC2 s).isSome = true) ∧
    (7 ≤ s.ADC3_Values.length → (UpdateADC3 s).isSome = true) := by
  refine ⟨?_, ?_, ?_, ?_⟩
  · intro s' hs'
    by_cases h : 12 ≤ s.ADC2_Values.length
    · obtain ⟨v0, v1, v2, v3, v4, v5, v6, v7, v8, v9, v10, v11, rest, hb⟩ :=
        exists_cons_of_twelve_le _ h
      rw [UpdateADC2_of_cons s _ _ _ _ _ _ _ _ _ _ _ _ rest hb] at hs'
      cases hs'
      simp
    · rw [UpdateADC2_of_short s (by omega)] at hs'
      cases hs'
  · intro s' hs'
    by_cases h : 7 ≤ s.ADC3_Values.length
    · obtain ⟨v0, v1, v2, v3, v4, v5, v6, rest, hb⟩ := exists_cons_of_seven_le _ h
      rw [UpdateADC3_of_cons s _ _ _ _ _ _ _ rest hb] at hs'
      cases hs'
      simp
    · rw [UpdateADC3_of_short s (by omega)] at hs'
      cases hs'
  · intro h
    obtain ⟨v0, v1, v2, v3, v4, v5, v6, v7, v8, v9, v10, v11, rest, hb⟩ :=
      exists_cons_of_twelve_le _ h
    rw [UpdateADC2_of_cons s _ _ _ _ _ _ _ _ _ _ _ _ rest hb]; rfl
  · intro h
    obtain ⟨v0, v1, v2, v3, v4, v5, v6, rest, hb⟩ := exists_cons_of_seven_le _ h
    rw [UpdateADC3_of_cons s _ _ _ _ _ _ _ rest hb]; rfl

/-- C8 at the state whose `adc209` holds `1.0f`: both routines return, and
the states they return keep what they do not own. -/
theorem Update_frame_stale :
    (∃ s', UpdateADC2 stateStale = some s' ∧
      s'.ADC2_Values = stateStale.ADC2_Values ∧ s'.ADC3_Values = stateStale.ADC3_Values ∧
      s'.isADC2Finished = stateStale.isADC2Finished ∧
      s'.isADC3Finished = stateStale.isADC3Finished ∧
      s'.adc309 = stateStale.adc309 ∧ s'.adc315 = stateStale.adc315 ∧
      s'.adc308 = stateStale.adc308 ∧ s'.adc306 = stateStale.adc306 ∧
      s'.adc305 = stateStale.adc305 ∧ s'.adc307 = stateStale.adc307 ∧
      s'.adc314 = stateStale.adc314) ∧
    (∃ s', UpdateADC3 stateStale = some s' ∧
      s'.ADC2_Values = stateStale.ADC2_Values ∧ s'.ADC3_Values = stateStale.ADC3_Values ∧
      s'.isADC2Finished = stateStale.isADC2Finished ∧
      s'.isADC3Finished = stateStale.isADC3Finished ∧
      s'.adc203 = stateStale.adc203 ∧ s'.adc209 = stateStale.adc209 ∧
      s'.adc213 = stateStale.adc213 ∧ s'.adc204 = stateStale.adc204 ∧
      s'.adc207 = stateStale.adc207 ∧ s'.adc206 = stateStale.adc206 ∧
      s'.adc205 = stateStale.adc205 ∧ s'.adc200 = stateStale.adc200 ∧
      s'.adc215 = stateStale.adc215 ∧ s'.adc208 = stateStale.adc208 ∧
      s'.adc214 = stateStale.adc214 ∧ s'.adc212 = stateStale.adc212 ∧
      s'.adc210 = stateStale.adc210) := by
  obtain ⟨s2, h2⟩ := Option.isSome_iff_exists.mp ((Update_frame stateStale).2.2.1 (by decide))
  obtain ⟨s3, h3⟩ := Option.isSome_iff_exists.mp ((Update_frame stateStale).2.2.2 (by decide))
  exact ⟨⟨s2, h2, (Update_frame stateStale).1 s2 h2⟩,
    ⟨s3, h3, (Update_frame stateStale).2.1 s3 h3⟩⟩

/-! ## C9: the voltage conversion is monotone -/

/-- C9: `ReadingToADCVoltage` is monotonically non-decreasing in the raw
sample, for a non-negative reference voltage and a positive full-scale
value: `r1 ≤ r2` gives `ReadingToADCVoltage r1 ≤ ReadingToADCVoltage r2`, in
particular for `r1`, `r2` in `[0, fullScale]`. -/
theorem ReadingToADCVoltage_monotone (referenceVoltage fullScaleValue : ℚ)
    (href : 0 ≤ referenceVoltage) (hfull : 0 < fullScaleValue)
    (r1 r2 : Nat) (h : r1 ≤ r2) :
    ReadingToADCVoltage referenceVoltage fullScaleValue r1
      ≤ ReadingToADCVoltage referenceVoltage fullScaleValue r2 := by
  unfold ReadingToADCVoltage
  have hk : 0 ≤ referenceVoltage / fullScaleValue := div_nonneg href hfull.le
  have hr : (r1 : ℚ) ≤ (r2 : ℚ) := by exact_mod_cast h
  exact mul_le_mul_of_nonneg_right hr hk

/-- C9 at a 3.3 V reference and the 12-bit full scale 4095. -/
theorem ReadingToADCVoltage_monotone_12bit :
    (0 : ℚ) ≤ 33 / 10 ∧ (0 : ℚ) < 4095 ∧ 1000 ≤ 4095 ∧
    ReadingToADCVoltage (33 / 10) 4095 1000 ≤ ReadingToADCVoltage (33 / 10) 4095 4095 :=
  ⟨by norm_num, by norm_num, by decide,
    ReadingToADCVoltage_monotone (33 / 10) 4095 (by norm_num) (by norm_num) 1000 4095
      (by decide)⟩

/-! ## C10: the two routines commute -/

/-- C10: `UpdateADC2` and `UpdateADC3` commute. For every state, `UpdateADC2`
then `UpdateADC3` gives what `UpdateADC3` then `UpdateADC2` gives; and when
both buffers hold the slots read, both orders return a state. -/
theorem Update_commute (s : State) :
    (UpdateADC2 s).bind UpdateADC3 = (UpdateADC3 s).bind UpdateADC2 ∧
    (12 ≤ s.ADC2_Values.length → 7 ≤ s.ADC3_Values.length →
      ((UpdateADC2 s).bind UpdateADC3).isSome = true) := by
  by_cases hA : 12 ≤ s.ADC2_Values.length
  · obtain ⟨v0, v1, v2, v3, v4, v5, v6, v7, v8, v9, v10, v11, rest, hb⟩ :=
      exists_cons_of_twelve_le _ hA
    by_cases hB : 7 ≤ s.ADC3_Values.length
    · obtain ⟨w0, w1, w2, w3, w4, w5, w6, rest', hb'⟩ := exists_cons_of_seven_le _ hB
      rw [UpdateADC2_of_cons s _ _ _ _ _ _ _ _ _ _ _ _ rest hb,
        UpdateADC3_of_cons s _ _ _ _ _ _ _ rest' hb', Option.some_bind, Option.some_bind]
      simp [UpdateADC2, UpdateADC3, hb, hb']
    · have hn : UpdateADC3 s = none := UpdateADC3_of_short s (by omega)
      rw [UpdateADC2_of_cons s _ _ _ _ _ _ _ _ _ _ _ _ rest hb, hn, Option.some_bind,
        UpdateADC3_of_short _ (by simpa using hB)]
      exact ⟨rfl, fun _ h => absurd h hB⟩
  · have hn : UpdateADC2 s = none := UpdateADC2_of_short s (by omega)
    refine ⟨?_, fun h => absurd h hA⟩
    rw [hn]
    by_cases hB : 7 ≤ s.ADC3_Values.length
    · obtain ⟨w0, w1, w2, w3, w4, w5, w6, rest', hb'⟩ := exists_cons_of_seven_le _ hB
      rw [UpdateADC3_of_cons s _ _ _ _ _ _ _ rest' hb', Option.some_bind,
        UpdateADC2_of_short _ (by simpa using hA)]
      rfl
    · rw [UpdateADC3_of_short s (by omega)]; rfl

/-- C10 at the spec's scenario, where both orders return. -/
theorem Update_commute_scenario :
    (UpdateADC2 (stateOf scenarioA sampleB)).bind UpdateADC3
      = (UpdateADC3 (stateOf scenarioA sampleB)).bind UpdateADC2 ∧
    ((UpdateADC2 (stateOf scenarioA sampleB)).bind UpdateADC3).isSome = true :=
  ⟨(Update_commute (stateOf scenarioA sampleB)).1,
    (Update_commute (stateOf scenarioA sampleB)).2 (by decide) (by decide)⟩

end ADC
